import Mathlib

/-!
Verification of the `httpClient` package (`src/http.go`): an outbound HTTP
call wrapper that records latency and request-count metrics via OpenCensus.

Shallow embedding notes.  Go pointers that may be nil are `Option`; Go
`error` values are `Option String` (`none` = nil error).  The OpenCensus
library (`stats.RecordWithTags`, `view.Register`) and the HTTP transport
(`http.Client.Do`) are external collaborators: their outcomes are supplied
by environment records (`DoEnv`, `RegistryEnv`) as functions of the data the
Go code hands them, while everything the package itself computes — status
code derivation, status class, tag values, millisecond truncation, the
views it constructs, and which results flow to which return value — is
embedded directly from the source.
-/

namespace HttpClient

/-- A context value (`context.Context` in Go); opaque to this package, it is
only threaded through to `stats.RecordWithTags`. -/
abbrev Ctx := Nat

/-- An OpenCensus tag key (`tag.Key`), identified by its name, as created by
`tag.MustNewKey`. -/
structure TagKey where
  name : String
deriving DecidableEq, Repr

/-- `MethodTag = tag.MustNewKey("http_method")` (src/http.go:30). -/
def MethodTag : TagKey := ⟨"http_method"⟩

/-- `StatusTag = tag.MustNewKey("http_status_code")` (src/http.go:34). -/
def StatusTag : TagKey := ⟨"http_status_code"⟩

/-- `StatusClassTag = tag.MustNewKey("http_status_class")` (src/http.go:38). -/
def StatusClassTag : TagKey := ⟨"http_status_class"⟩

/-- `APINameTag = tag.MustNewKey("api_name")` (src/http.go:43). -/
def APINameTag : TagKey := ⟨"api_name"⟩

/-- `VersionTag = tag.MustNewKey("version_name")` (src/http.go:48). -/
def VersionTag : TagKey := ⟨"version_name"⟩

/-- An OpenCensus measure (`stats.Int64(name, description, unit)`). -/
structure Measure where
  name : String
  description : String
  unit : String
deriving DecidableEq, Repr

/-- `outboundHTTPLatency = stats.Int64("http_outbound_latency", ..., stats.UnitMilliseconds)`
(src/http.go:21); `stats.UnitMilliseconds` is the string "ms". -/
def outboundHTTPLatency : Measure :=
  ⟨"http_outbound_latency", "Latency of the external HTTP API", "ms"⟩

/-- `outboundHTTPRequests = stats.Int64("http_outbound_count", ..., stats.UnitDimensionless)`
(src/http.go:24); `stats.UnitDimensionless` is the string "1". -/
def outboundHTTPRequests : Measure :=
  ⟨"http_outbound_count", "Request count to the external HTTP API", "1"⟩

/-- A tag mutator `tag.Insert(key, value)` as passed to `stats.RecordWithTags`. -/
structure TagMutator where
  key : TagKey
  value : String
deriving DecidableEq, Repr

/-- A measurement `m.M(v)` for an `stats.Int64` measure: the measure together
with the recorded integer value. -/
structure Measurement where
  measure : Measure
  value : Int
deriving DecidableEq, Repr

/-- One invocation of `stats.RecordWithTags(ctx, mutators, measurements...)`:
the arguments the package submits to the OpenCensus registry. -/
structure RecordCall where
  ctx : Ctx
  mutators : List TagMutator
  measurements : List Measurement
deriving DecidableEq, Repr

/-- An HTTP response (`*http.Response`); the package reads only `StatusCode`. -/
structure Response where
  statusCode : Int
deriving DecidableEq, Repr

/-- An HTTP request (`*http.Request`); the package reads only `req.Method`
and `req.Context()`. -/
structure Request where
  method : String
  ctx : Ctx
deriving DecidableEq, Repr

/-- Status-class derivation, embedding the if/else-if chain of
`recordHTTPMetrics` (src/http.go:93-105): `code >= 100 && code <= 199`
yields "1xx", ..., `code >= 500 && code <= 599` yields "5xx", otherwise
"UNKNOWN". -/
def statusClass (code : Int) : String :=
  if 100 ≤ code ∧ code ≤ 199 then "1xx"
  else if 200 ≤ code ∧ code ≤ 299 then "2xx"
  else if 300 ≤ code ∧ code ≤ 399 then "3xx"
  else if 400 ≤ code ∧ code ≤ 499 then "4xx"
  else if 500 ≤ code ∧ code ≤ 599 then "5xx"
  else "UNKNOWN"

/-- Go `strconv.Itoa` on the embedded status code: decimal string of the
integer (negative values rendered with a leading minus sign, as in Go). -/
def itoa (n : Int) : String := toString n

/-- Go `time.Duration.Milliseconds()`: the duration in nanoseconds divided
by 10^6 with Go integer division, which truncates toward zero (`Int.tdiv`). -/
def durationMilliseconds (ns : Int) : Int := Int.tdiv ns 1000000

/-- `recordHTTPMetrics` (src/http.go:82-121).  Derives the status code from
the response (sentinel 500 when the response is nil), the status class from
the code, builds the five tag mutators in source order, and submits one
latency measurement (milliseconds) and one count measurement of 1 in a
single `stats.RecordWithTags` call.  The behavior of `RecordWithTags`
itself is external and supplied as `record`; the function returns the call
it made together with the error `RecordWithTags` returned (`none` = nil). -/
def recordHTTPMetrics (record : RecordCall → Option String) (ctx : Ctx)
    (method apiName versionName : String) (latency : Int)
    (resp : Option Response) : RecordCall × Option String :=
  let code : Int :=
    match resp with
    | some r => r.statusCode
    | none => 500
  let cls := statusClass code
  let call : RecordCall :=
    { ctx := ctx
      mutators := [⟨MethodTag, method⟩, ⟨APINameTag, apiName⟩,
                   ⟨StatusTag, itoa code⟩, ⟨StatusClassTag, cls⟩,
                   ⟨VersionTag, versionName⟩]
      measurements := [⟨outboundHTTPLatency, durationMilliseconds latency⟩,
                       ⟨outboundHTTPRequests, 1⟩] }
  (call, record call)

/-- Environment for `Do`: the outcome of the external HTTP transport
(`client.Do(req)`, a function of the request and the configured client
timeout, yielding a possibly-nil response and a possibly-nil error), the
elapsed wall-clock nanoseconds measured by `time.Since(start)`, and the
outcome of `stats.RecordWithTags` for a given submitted call. -/
structure DoEnv where
  transport : Request → Int → Option Response × Option String
  elapsedNs : Int
  recordResult : RecordCall → Option String

/-- The result of one `Do` call: its three return values (src/http.go:78),
the trace of `stats.RecordWithTags` invocations it performed, and the
timeout it configured on the `http.Client`. -/
structure DoResult where
  response : Option Response
  httpError : Option String
  metricError : Option String
  recordCalls : List RecordCall
  clientTimeout : Int

/-- `Do` (src/http.go:63-79).  Executes the request through the transport
with the given timeout, measures elapsed time, calls `recordHTTPMetrics`
once with `req.Context()`, `req.Method`, the tag strings, the elapsed
duration and the response, and returns `(response, httpError, metricError)`
exactly as produced by the transport call and the recording call. -/
def Do (env : DoEnv) (req : Request) (apiName versionName : String)
    (timeout : Int) : DoResult :=
  let tr := env.transport req timeout
  let response := tr.1
  let httpError := tr.2
  let timeTaken := env.elapsedNs
  let rc := recordHTTPMetrics env.recordResult req.ctx req.method apiName
      versionName timeTaken response
  { response := response
    httpError := httpError
    metricError := rc.2
    recordCalls := [rc.1]
    clientTimeout := timeout }

/-- Outcome of running a Go function that may dereference a nil pointer. -/
inductive GoOutcome (α : Type) where
  | panicked
  | ok (val : α)
deriving DecidableEq, Repr

/-- `Do` as called with a possibly-nil `*http.Request`.  The body of `Do`
dereferences the request unconditionally — `req.Context()` and `req.Method`
at src/http.go:76 (and `client.Do(req)` before that) — so a nil request
causes a nil-pointer panic rather than a return. -/
def DoChecked (env : DoEnv) (req : Option Request)
    (apiName versionName : String) (timeout : Int) : GoOutcome DoResult :=
  match req with
  | none => GoOutcome.panicked
  | some r => GoOutcome.ok (Do env r apiName versionName timeout)

/-- An OpenCensus aggregation: `view.Distribution(bounds...)` or
`view.Count()`. -/
inductive Aggregation where
  | distribution (bounds : List Int)
  | count
deriving DecidableEq, Repr

/-- An OpenCensus `view.View`: the fields the package fills in when
constructing its two views. -/
structure View where
  measure : Measure
  name : String
  tagKeys : List TagKey
  description : String
  aggregation : Aggregation
deriving DecidableEq, Repr

/-- Environment for registration: the outcome of the external
`view.Register(v)` call for a given view (`none` = nil error). -/
structure RegistryEnv where
  registerResult : View → Option String

/-- `registerLatencyMetric` (src/http.go:126-139): builds a view over the
measure with the given tag keys and the fixed distribution bounds
0, 100, 200, 400, 1000, 2000, 4000, registers it, and returns exactly the
error `view.Register` returned.  The result pairs the view that was
submitted with that error. -/
def registerLatencyMetric (env : RegistryEnv) (m : Measure)
    (tags : List TagKey) : View × Option String :=
  let v : View :=
    { measure := m
      name := m.name
      tagKeys := tags
      description := m.description
      aggregation := Aggregation.distribution [0, 100, 200, 400, 1000, 2000, 4000] }
  (v, env.registerResult v)

/-- `registerCounterMetric` (src/http.go:144-157): identical to
`registerLatencyMetric` but with a `view.Count()` aggregation. -/
def registerCounterMetric (env : RegistryEnv) (m : Measure)
    (tags : List TagKey) : View × Option String :=
  let v : View :=
    { measure := m
      name := m.name
      tagKeys := tags
      description := m.description
      aggregation := Aggregation.count }
  (v, env.registerResult v)

/-- Whether package initialization completed or was aborted (a Go `init`
can only abort by panicking). -/
inductive InitOutcome where
  | completed
  | aborted (msg : String)
deriving DecidableEq, Repr

/-- Trace of package initialization: the views submitted for registration
and whether initialization completed. -/
structure InitTrace where
  registeredViews : List View
  outcome : InitOutcome
deriving DecidableEq, Repr

/-- `init` (src/http.go:51-54): registers the latency view and the counter
view, each keyed by `[]tag.Key{MethodTag, APINameTag, StatusTag,
StatusClassTag, VersionTag}`.  The error values returned by the two
register calls are not inspected: the function body contains no panic or
abort path, so initialization always completes. -/
def init (env : RegistryEnv) : InitTrace :=
  let r1 := registerLatencyMetric env outboundHTTPLatency
      [MethodTag, APINameTag, StatusTag, StatusClassTag, VersionTag]
  let r2 := registerCounterMetric env outboundHTTPRequests
      [MethodTag, APINameTag, StatusTag, StatusClassTag, VersionTag]
  { registeredViews := [r1.1, r2.1]
    outcome := InitOutcome.completed }

/-- A concrete environment whose transport fails with no response and a
non-nil error, used for the C3 witness. -/
def c3env : DoEnv :=
  { transport := fun _ _ => (none, some "dial tcp: connection refused")
    elapsedNs := 2000000000
    recordResult := fun _ => none }

/-- A concrete environment whose transport succeeds with a 404 response,
used for the C5 scenario. -/
def c5env : DoEnv :=
  { transport := fun _ _ => (some ⟨404⟩, none)
    elapsedNs := 12000000
    recordResult := fun _ => none }

/-- A concrete registry environment in which every `view.Register` call
fails, used for the C6 counterexample. -/
def c6FailEnv : RegistryEnv :=
  ⟨fun _ => some "cannot register the view: a different view with the same name is already registered"⟩

/-- A concrete environment whose call takes 999999 ns (just under one
millisecond), used for the C9 witness. -/
def c9env : DoEnv :=
  { transport := fun _ _ => (some ⟨200⟩, none)
    elapsedNs := 999999
    recordResult := fun _ => none }

/-- C1: for every call to `Do`, regardless of the transport outcome, exactly
one recording attempt is made, and it submits exactly one latency
observation and exactly one count observation with value 1. -/
theorem do_one_recording_attempt (env : DoEnv) (req : Request)
    (apiName versionName : String) (timeout : Int) :
    ∃ call, (Do env req apiName versionName timeout).recordCalls = [call] ∧
      call.measurements.countP
        (fun ms => decide (ms.measure = outboundHTTPLatency)) = 1 ∧
      call.measurements.countP
        (fun ms => decide (ms.measure = outboundHTTPRequests ∧ ms.value = 1)) = 1 := by
  refine ⟨_, rfl, ?_, ?_⟩ <;>
    simp [recordHTTPMetrics, List.countP_cons, outboundHTTPLatency,
      outboundHTTPRequests]

/-- C2: the status-class string is "1xx".."5xx" on the corresponding
hundred-ranges 100-199 .. 500-599, and "UNKNOWN" for every other integer. -/
theorem statusClass_ranges (c : Int) :
    ((100 ≤ c ∧ c ≤ 199) → statusClass c = "1xx") ∧
    ((200 ≤ c ∧ c ≤ 299) → statusClass c = "2xx") ∧
    ((300 ≤ c ∧ c ≤ 399) → statusClass c = "3xx") ∧
    ((400 ≤ c ∧ c ≤ 499) → statusClass c = "4xx") ∧
    ((500 ≤ c ∧ c ≤ 599) → statusClass c = "5xx") ∧
    ((c < 100 ∨ 599 < c) → statusClass c = "UNKNOWN") := by
  unfold statusClass
  refine ⟨?_, ?_, ?_, ?_, ?_, ?_⟩ <;> intro h <;> split_ifs <;>
    first | rfl | (exfalso; omega)

/-- C2 witness: concrete classifications, obtained from `statusClass_ranges`. -/
theorem statusClass_ranges_witness :
    ((400:Int) ≤ 404 ∧ (404:Int) ≤ 499) ∧ ((-3:Int) < 100 ∨ (599:Int) < -3) ∧
    statusClass 404 = "4xx" ∧ statusClass (-3) = "UNKNOWN" :=
  ⟨by decide, by decide,
   (statusClass_ranges 404).2.2.2.1 (by constructor <;> decide),
   (statusClass_ranges (-3)).2.2.2.2.2 (Or.inl (by decide))⟩

/-- C3: when the transport yields no response, the recording still happens
with the sentinel status code 500: the status-code tag value is "500", the
status-class tag value is "5xx", and the returned httpError is non-nil. -/
theorem transport_failure_sentinel (env : DoEnv) (req : Request)
    (apiName versionName : String) (timeout : Int)
    (hresp : (env.transport req timeout).1 = none)
    (herr : (env.transport req timeout).2 ≠ none) :
    ∃ call, (Do env req apiName versionName timeout).recordCalls = [call] ∧
      call.mutators = [⟨MethodTag, req.method⟩, ⟨APINameTag, apiName⟩,
        ⟨StatusTag, "500"⟩, ⟨StatusClassTag, "5xx"⟩,
        ⟨VersionTag, versionName⟩] ∧
      (Do env req apiName versionName timeout).httpError ≠ none := by
  refine ⟨_, rfl, ?_, herr⟩
  simp [Do, recordHTTPMetrics, hresp, itoa, statusClass]
  rfl

/-- C3 witness: a concrete environment whose transport fails with no
response, run through `transport_failure_sentinel`. -/
theorem transport_failure_sentinel_witness :
    ((c3env.transport ⟨"POST", 7⟩ 2000).1 = none) ∧
    ((c3env.transport ⟨"POST", 7⟩ 2000).2 ≠ none) ∧
    (∃ call, (Do c3env ⟨"POST", 7⟩ "books" "v1" 2000).recordCalls = [call] ∧
      call.mutators = [⟨MethodTag, "POST"⟩, ⟨APINameTag, "books"⟩,
        ⟨StatusTag, "500"⟩, ⟨StatusClassTag, "5xx"⟩, ⟨VersionTag, "v1"⟩] ∧
      (Do c3env ⟨"POST", 7⟩ "books" "v1" 2000).httpError ≠ none) :=
  ⟨rfl, by simp [c3env],
   transport_failure_sentinel c3env ⟨"POST", 7⟩ "books" "v1" 2000 rfl
     (by simp [c3env])⟩

/-- C4: the recording outcome never alters the call outcome: `Do` returns
the response and httpError exactly as the transport produced them, and they
do not depend on the recording function at all. -/
theorem recording_never_alters_call (env : DoEnv) (req : Request)
    (apiName versionName : String) (timeout : Int) :
    (Do env req apiName versionName timeout).response
        = (env.transport req timeout).1 ∧
    (Do env req apiName versionName timeout).httpError
        = (env.transport req timeout).2 ∧
    ∀ rr : RecordCall → Option String,
      (Do { env with recordResult := rr } req apiName versionName timeout).response
          = (Do env req apiName versionName timeout).response ∧
      (Do { env with recordResult := rr } req apiName versionName timeout).httpError
          = (Do env req apiName versionName timeout).httpError :=
  ⟨rfl, rfl, fun _ => ⟨rfl, rfl⟩⟩

/-- C5: a GET to API "search", version "v3", answered with status 404,
records exactly the tag values http_method="GET", api_name="search",
http_status_code="404", http_status_class="4xx", version_name="v3", with
nil callError and nil recordingError. -/
theorem scenario_get_search_v3_404 :
    ∃ call, (Do c5env ⟨"GET", 0⟩ "search" "v3" 1000).recordCalls = [call] ∧
      call.mutators = [⟨⟨"http_method"⟩, "GET"⟩, ⟨⟨"api_name"⟩, "search"⟩,
        ⟨⟨"http_status_code"⟩, "404"⟩, ⟨⟨"http_status_class"⟩, "4xx"⟩,
        ⟨⟨"version_name"⟩, "v3"⟩] ∧
      (Do c5env ⟨"GET", 0⟩ "search" "v3" 1000).httpError = none ∧
      (Do c5env ⟨"GET", 0⟩ "search" "v3" 1000).metricError = none := by
  refine ⟨_, rfl, ?_, rfl, rfl⟩
  simp [Do, recordHTTPMetrics, c5env, itoa, statusClass, MethodTag,
    APINameTag, StatusTag, StatusClassTag, VersionTag]
  rfl

/-- C6 counterexample: in an environment where every `view.Register` call
fails, both registrations in `init` return non-nil errors, yet `init`
completes and the process proceeds — registration failure is not fatal. -/
theorem init_ignores_registration_failure :
    (registerLatencyMetric c6FailEnv outboundHTTPLatency
        [MethodTag, APINameTag, StatusTag, StatusClassTag, VersionTag]).2 ≠ none ∧
    (registerCounterMetric c6FailEnv outboundHTTPRequests
        [MethodTag, APINameTag, StatusTag, StatusClassTag, VersionTag]).2 ≠ none ∧
    (init c6FailEnv).outcome = InitOutcome.completed := by
  refine ⟨?_, ?_, rfl⟩ <;>
    simp [registerLatencyMetric, registerCounterMetric, c6FailEnv]

/-- C6 amended: `init` discards the registration errors; initialization
always completes (both view registrations are attempted, and no failure of
either aborts the process). -/
theorem init_always_completes (env : RegistryEnv) :
    (init env).outcome = InitOutcome.completed ∧
    (init env).registeredViews.length = 2 :=
  ⟨rfl, rfl⟩

/-- C8: the latency view uses a distribution aggregation with bucket bounds
exactly 0, 100, 200, 400, 1000, 2000, 4000; the counter view uses a count
aggregation; both are keyed by the same five tag keys in the order method,
API name, status code, status class, version. -/
theorem views_registered_shape (env : RegistryEnv) :
    ∃ vl vc, (init env).registeredViews = [vl, vc] ∧
      vl.aggregation = Aggregation.distribution [0, 100, 200, 400, 1000, 2000, 4000] ∧
      vc.aggregation = Aggregation.count ∧
      vl.tagKeys = [MethodTag, APINameTag, StatusTag, StatusClassTag, VersionTag] ∧
      vc.tagKeys = vl.tagKeys :=
  ⟨_, _, rfl, rfl, rfl, rfl, rfl⟩

/-- C9: the recorded latency value is the elapsed nanoseconds converted to
whole milliseconds by truncation toward zero (for nonnegative elapsed time
it is Euclidean division by 10^6, for negative it is the negated division
of the absolute value), and any elapsed duration under one millisecond
records as 0. -/
theorem latency_truncated_ms (env : DoEnv) (req : Request)
    (apiName versionName : String) (timeout : Int) :
    ∃ call lv, (Do env req apiName versionName timeout).recordCalls = [call] ∧
      call.measurements.head? = some ⟨outboundHTTPLatency, lv⟩ ∧
      (0 ≤ env.elapsedNs → lv = env.elapsedNs / 1000000) ∧
      (env.elapsedNs < 0 → lv = -((-env.elapsedNs) / 1000000)) ∧
      (0 ≤ env.elapsedNs → env.elapsedNs < 1000000 → lv = 0) := by
  refine ⟨_, durationMilliseconds env.elapsedNs, rfl, rfl, ?_, ?_, ?_⟩
  · intro h
    exact Int.tdiv_eq_ediv h (by norm_num)
  · intro h
    have h2 : Int.tdiv env.elapsedNs 1000000
        = -Int.tdiv (-env.elapsedNs) 1000000 := by
      rw [← Int.neg_tdiv, neg_neg]
    rw [durationMilliseconds, h2,
      Int.tdiv_eq_ediv (by omega) (by norm_num)]
  · intro h1 h2
    rw [durationMilliseconds, Int.tdiv_eq_ediv h1 (by norm_num)]
    omega

/-- C9 witness: a concrete call with elapsed time 999999 ns (just under one
millisecond) records latency 0, via `latency_truncated_ms`. -/
theorem latency_truncated_ms_witness :
    (0 ≤ c9env.elapsedNs) ∧ (c9env.elapsedNs < 1000000) ∧
    (∃ call lv, (Do c9env ⟨"GET", 0⟩ "a" "v" 5).recordCalls = [call] ∧
      call.measurements.head? = some ⟨outboundHTTPLatency, lv⟩ ∧ lv = 0) := by
  refine ⟨by decide, by decide, ?_⟩
  obtain ⟨call, lv, h1, h2, _, _, h5⟩ :=
    latency_truncated_ms c9env ⟨"GET", 0⟩ "a" "v" 5
  exact ⟨call, lv, h1, h2, h5 (by decide) (by decide)⟩

/-- C10: a nil request makes `Do` panic instead of returning its three-way
result, because the request is dereferenced unconditionally; a non-nil
request proceeds normally. -/
theorem nil_request_panics (env : DoEnv) (apiName versionName : String)
    (timeout : Int) :
    DoChecked env none apiName versionName timeout = GoOutcome.panicked ∧
    ∀ r : Request, DoChecked env (some r) apiName versionName timeout
        = GoOutcome.ok (Do env r apiName versionName timeout) :=
  ⟨rfl, fun _ => rfl⟩

end HttpClient
